import Mathlib

/-!
# Verification of the anonymous-video-chat coordinator

Shallow embedding of the matching / signaling coordinator from
`src/anon-video-chat.tsx`.  The Supabase tables `sessions`, `matches`,
`signals` are modelled as lists of records inside a `Store` value, and each
coordinator function (`upsertPresence`, `getAvailablePeer`, `createMatch`,
`endMatch`, `sendSignalSupabase`, `receiveSignalSupabase`,
`receiveAllSignalsSupabase`) becomes a pure state transformer on `Store`.
Timestamps (ISO-8601 strings in the source, totally ordered by time) are
modelled as natural numbers of milliseconds; `Date.now()` becomes an explicit
`now` argument.
-/

namespace AnonChat

/-- Session status, the `status` column of the `sessions` table:
`'waiting' | 'in_call' | 'offline'`. -/
inductive Status where
  | waiting
  | in_call
  | offline
deriving DecidableEq, Repr

/-- A row of the `sessions` table: id, status, `last_heartbeat`
(milliseconds), and nullable `match_id`. -/
structure SessionRec where
  id : String
  status : Status
  lastHeartbeat : Nat
  matchId : Option String
deriving DecidableEq, Repr

/-- A row of the `matches` table: id, the two participant session ids,
`started_at`, nullable `ended_at` and nullable `duration_seconds`. -/
structure MatchRec where
  id : String
  sessionA : String
  sessionB : String
  startedAt : Nat
  endedAt : Option Nat
  durationSeconds : Option Nat
deriving DecidableEq, Repr

/-- A row of the `signals` table: match id, sender session id, opaque
payload (the JSON-stringified signal), and `created_at`. -/
structure SignalRec where
  matchId : String
  senderId : String
  payload : String
  createdAt : Nat
deriving DecidableEq, Repr

/-- A row of the `reports` table described by the spec (§3, §4.4). -/
structure ReportRec where
  matchId : String
  reporter : String
  category : String
  createdAt : Nat
deriving DecidableEq, Repr

/-- The durable store: the `sessions`, `matches` and `signals` tables of the
source, plus the `reports` table and blacklist set described by the spec
(no code under src touches the latter two). -/
structure Store where
  sessions : List SessionRec
  matchesTable : List MatchRec
  signals : List SignalRec
  reports : List ReportRec
  blacklist : List String
deriving DecidableEq, Repr

/-- The empty store. -/
def Store.empty : Store := ⟨[], [], [], [], []⟩

/-- Result of `upsertPresence`: the source returns
`{ data: { session_id }, error: null }`. -/
structure UpsertResult where
  session_id : String
  error : Option String
deriving DecidableEq, Repr

/-- Result of `createMatch`: the source returns
`{ data: { match_id, peer_id }, error: null }`. -/
structure CreateMatchResult where
  match_id : String
  peer_id : String
  error : Option String
deriving DecidableEq, Repr

/-- Result of `endMatch`: the source returns `{ error: null }`. -/
structure EndResult where
  error : Option String
deriving DecidableEq, Repr

/-- `upsertPresence(sessionId, status)`: upsert into `sessions` the row
`{ id, status, last_heartbeat: now }`.  On conflict on the primary key `id`
only the supplied columns are written, so an existing row keeps its
`match_id`; a fresh row has `match_id` null.  Always returns
`{ data: { session_id }, error: null }`. -/
def upsertPresence (sessionId : String) (status : Status) (now : Nat)
    (σ : Store) : Store × UpsertResult :=
  let sessions :=
    if σ.sessions.any (fun r => r.id == sessionId) then
      σ.sessions.map (fun r =>
        if r.id == sessionId then
          { r with status := status, lastHeartbeat := now }
        else r)
    else
      σ.sessions ++ [⟨sessionId, status, now, none⟩]
  ({ σ with sessions := sessions }, ⟨sessionId, none⟩)

/-- Returns the element of `l` with the largest `lastHeartbeat`, starting
from `best` (the fold behind `order('last_heartbeat', descending).limit(1)`;
ties are resolved arbitrarily by the database, here in favour of the
earlier row). -/
def freshest (best : SessionRec) : List SessionRec → SessionRec
  | [] => best
  | c :: cs => freshest (if best.lastHeartbeat < c.lastHeartbeat then c else best) cs

/-- `getAvailablePeer(sessionId)`: select `id` from `sessions` where
`status = 'waiting'` and `id ≠ sessionId`, ordered by `last_heartbeat`
descending, limit 1.  Returns the id of the first row, if any. -/
def getAvailablePeer (sessionId : String) (σ : Store) : Option String :=
  match σ.sessions.filter (fun r => r.status == Status.waiting && r.id != sessionId) with
  | [] => none
  | r :: rs => some (freshest r rs).id

/-- `createMatch(sessionId, peerId)`: insert a `matches` row
`{ id: matchId, session_a: sessionId, session_b: peerId, started_at: now }`,
then unconditionally update each of the two sessions to
`{ status: 'in_call', match_id: matchId }` (the `update ... eq('id', x)`
has no condition on the current status).  Always returns
`{ data: { match_id, peer_id }, error: null }`.  The generated match id is
passed in explicitly (`generateMatchId` is random in the source). -/
def createMatch (sessionId peerId matchId : String) (now : Nat)
    (σ : Store) : Store × CreateMatchResult :=
  let σ1 : Store := { σ with matchesTable := σ.matchesTable ++ [⟨matchId, sessionId, peerId, now, none, none⟩] }
  let σ2 : Store := { σ1 with sessions := σ1.sessions.map (fun r =>
    if r.id == sessionId then { r with status := Status.in_call, matchId := some matchId }
    else r) }
  let σ3 : Store := { σ2 with sessions := σ2.sessions.map (fun r =>
    if r.id == peerId then { r with status := Status.in_call, matchId := some matchId }
    else r) }
  (σ3, ⟨matchId, peerId, none⟩)

/-- The `.single()` select behind `endMatch`: Supabase `single()` yields a
row exactly when the filter matches exactly one row, and a null `data`
otherwise (zero rows or several rows both produce an error object that the
source never reads). -/
def findSingleMatch (matchId : String) (σ : Store) : Option MatchRec :=
  match σ.matchesTable.filter (fun m => m.id == matchId) with
  | [m] => some m
  | _ => none

/-- `endMatch(matchId)`: read the match via `.single()`; if `data` is null
return `{ error: null }` leaving the store untouched.  Otherwise compute
`duration = floor((now − started_at) / 1000)`, update the match with
`ended_at = now` and `duration_seconds = duration`, update every session
whose id is `session_a` or `session_b` to
`{ status: 'waiting', match_id: null }`, and return `{ error: null }`. -/
def endMatch (matchId : String) (now : Nat) (σ : Store) : Store × EndResult :=
  match findSingleMatch matchId σ with
  | none => (σ, ⟨none⟩)
  | some data =>
    let duration := (now - data.startedAt) / 1000
    let σ1 : Store := { σ with matchesTable := σ.matchesTable.map (fun m =>
      if m.id == matchId then
        { m with endedAt := some now, durationSeconds := some duration }
      else m) }
    let σ2 : Store := { σ1 with sessions := σ1.sessions.map (fun r =>
      if r.id == data.sessionA || r.id == data.sessionB then
        { r with status := Status.waiting, matchId := none }
      else r) }
    (σ2, ⟨none⟩)

/-- `sendSignalSupabase(matchId, senderId, payload)`: insert a `signals`
row with `created_at = now`. -/
def sendSignalSupabase (matchId senderId payload : String) (now : Nat)
    (σ : Store) : Store :=
  { σ with signals := σ.signals ++ [⟨matchId, senderId, payload, now⟩] }

/-- Returns the element of `l` with the largest `createdAt`, starting from
`best` (the fold behind `order('created_at', descending).limit(1)`). -/
def latestSignal (best : SignalRec) : List SignalRec → SignalRec
  | [] => best
  | c :: cs => latestSignal (if best.createdAt < c.createdAt then c else best) cs

/-- `receiveSignalSupabase(matchId, selfId)` (first variant): select
`payload` from `signals` where `match_id = matchId` and
`sender_id ≠ selfId`, ordered by `created_at` descending, limit 1; return
the parsed payload of that single row, or null when there is none.  No
cursor of any kind is kept. -/
def receiveSignalSupabase (matchId selfId : String) (σ : Store) : Option String :=
  match σ.signals.filter (fun s => s.matchId == matchId && s.senderId != selfId) with
  | [] => none
  | s :: ss => some (latestSignal s ss).payload

/-- Insertion step of the ascending `created_at` sort behind
`order('created_at', ascending)`. -/
def insertByTime (s : SignalRec) : List SignalRec → List SignalRec
  | [] => [s]
  | t :: ts => if s.createdAt ≤ t.createdAt then s :: t :: ts else t :: insertByTime s ts

/-- Ascending sort by `created_at`. -/
def sortByTime : List SignalRec → List SignalRec
  | [] => []
  | s :: ss => insertByTime s (sortByTime ss)

/-- `receiveAllSignalsSupabase(matchId, selfId)` (second variant): the
module-global cursor `lastSignalTime[matchId]` (sentinel
`'1900-01-01T00:00:00Z'`, modelled as 0) is passed in explicitly; select
`payload, created_at` where `match_id = matchId`, `sender_id ≠ selfId` and
`created_at > lastTime` (strict), ordered by `created_at` ascending; if
rows came back, set the cursor to the `created_at` of the last row and
return all payloads, else return the empty list with the cursor
unchanged. -/
def receiveAllSignalsSupabase (matchId selfId : String) (lastTime : Nat)
    (σ : Store) : List String × Nat :=
  let rows := sortByTime (σ.signals.filter (fun s =>
    s.matchId == matchId && s.senderId != selfId && lastTime < s.createdAt))
  match rows.getLast? with
  | some lastRow => (rows.map (fun s => s.payload), lastRow.createdAt)
  | none => ([], lastTime)

/-- The offer-role tie-break of `VideoCall`: the side with the
lexicographically smaller session id sends the offer
(`if (peerId && sessionId < peerId) { createOffer ... }`). -/
def isInitiator (sessionId peerId : String) : Bool :=
  decide (sessionId < peerId)

/-- Modelled from the spec: no report/blacklist code exists under src (the
spec's `report(matchId, reporterSessionId, category)` of §4.4 has no
implementation there).  This is the append-only `Report` insert. -/
def appendReport (matchId reporter category : String) (now : Nat) (σ : Store) : Store :=
  { σ with reports := σ.reports ++ [⟨matchId, reporter, category, now⟩] }

/-- Distinct reporters among the reports recorded against a match. -/
def distinctReporters (matchId : String) (σ : Store) : List String :=
  ((σ.reports.filter (fun rp => rp.matchId == matchId)).map
    (fun rp => rp.reporter)).dedup

/-- Modelled from the spec: after the append, count distinct reports
against the match; on reaching the threshold 3, add both sides of the
match to the blacklist. -/
def reportOp (matchId reporter category : String) (now : Nat) (σ : Store) : Store :=
  if 3 ≤ (distinctReporters matchId (appendReport matchId reporter category now σ)).length then
    match (appendReport matchId reporter category now σ).matchesTable.filter
        (fun m => m.id == matchId) with
    | [m] => { appendReport matchId reporter category now σ with
                blacklist := (appendReport matchId reporter category now σ).blacklist ++
                  [m.sessionA, m.sessionB] }
    | _ => appendReport matchId reporter category now σ
  else appendReport matchId reporter category now σ

/-- A match is open when `ended_at` is null. -/
def MatchRec.isOpen (m : MatchRec) : Bool := m.endedAt == none

/-- Number of open matches in which `sid` participates. -/
def openMatchCount (sid : String) (σ : Store) : Nat :=
  (σ.matchesTable.filter (fun m => m.isOpen && (m.sessionA == sid || m.sessionB == sid))).length

/-- The session-record invariant of spec §3: a session's match id is
non-null iff its status is `in_call`, and for every open match the sessions
carrying its id are exactly the two sessions it references (each of which
exists). -/
def sessionInvariant (σ : Store) : Bool :=
  σ.sessions.all (fun s => s.matchId.isSome == (s.status == Status.in_call)) &&
  σ.matchesTable.all (fun m =>
    !m.isOpen ||
    (σ.sessions.any (fun s => s.id == m.sessionA && s.matchId == some m.id) &&
     σ.sessions.any (fun s => s.id == m.sessionB && s.matchId == some m.id) &&
     σ.sessions.all (fun s =>
       s.matchId != some m.id || (s.id == m.sessionA || s.id == m.sessionB))))


/-! ## Concrete scenario stores -/

/-- Two waiting sessions, each the other's only candidate. -/
def c1initial : Store :=
  { sessions := [⟨"sess_a", Status.waiting, 100, none⟩, ⟨"sess_b", Status.waiting, 200, none⟩],
    matchesTable := [], signals := [], reports := [], blacklist := [] }

/-- The store after session a's pairing step has run to completion. -/
def c1afterA : Store := (createMatch "sess_a" "sess_b" "m1" 300 c1initial).1

/-- The store after session b's pairing step (begun concurrently, with the
candidate chosen from `c1initial`) also runs to completion. -/
def c1raced : Store := (createMatch "sess_b" "sess_a" "m2" 300 c1afterA).1

/-- An in-progress match between sess_a and sess_b started at time 0. -/
def c3store : Store :=
  { sessions := [⟨"sess_a", Status.in_call, 10, some "m1"⟩,
                 ⟨"sess_b", Status.in_call, 12, some "m1"⟩],
    matchesTable := [⟨"m1", "sess_a", "sess_b", 0, none, none⟩],
    signals := [], reports := [], blacklist := [] }

/-- `c3store` after a first `endMatch("m1")` at t = 42 s. -/
def c3once : Store := (endMatch "m1" 42000 c3store).1

/-- `c3once` after a second `endMatch("m1")` at t = 100 s. -/
def c3twice : Store := (endMatch "m1" 100000 c3once).1

/-- Three waiting sessions; sess_b has the freshest heartbeat, so it is the
candidate of both sess_a and sess_c. -/
def c4initial : Store :=
  { sessions := [⟨"sess_a", Status.waiting, 5, none⟩,
                 ⟨"sess_b", Status.waiting, 30, none⟩,
                 ⟨"sess_c", Status.waiting, 20, none⟩],
    matchesTable := [], signals := [], reports := [], blacklist := [] }

/-- `c4initial` after sess_c's pairing step claims sess_b. -/
def c4claimed : Store := (createMatch "sess_c" "sess_b" "m0" 40 c4initial).1

/-- `c4claimed` after sess_a's pairing step (still acting on its stale read
of `c4initial`) also claims sess_b. -/
def c4raced : Store := (createMatch "sess_a" "sess_b" "m1" 41 c4claimed).1

/-! ## C1 -/

/-- C1: the pairing step has no conditional update — `createMatch` writes
`status = 'in_call'` guarded only by `eq('id', …)`.  When two waiting
sessions run the pairing step concurrently with each other as their only
candidate, both `createMatch` calls succeed: two open matches referencing
{sess_a, sess_b} are created and each session ends as a participant of two
open matches (the claimed exactly-one-match outcome and the
at-most-one-open-match invariant both fail). -/
theorem createMatch_race_creates_two_open_matches :
    getAvailablePeer "sess_a" c1initial = some "sess_b" ∧
    getAvailablePeer "sess_b" c1initial = some "sess_a" ∧
    (c1raced.matchesTable.map MatchRec.id) = ["m1", "m2"] ∧
    (∀ m ∈ c1raced.matchesTable, m.isOpen = true ∧
      ((m.sessionA = "sess_a" ∧ m.sessionB = "sess_b") ∨
       (m.sessionA = "sess_b" ∧ m.sessionB = "sess_a"))) ∧
    openMatchCount "sess_a" c1raced = 2 ∧
    openMatchCount "sess_b" c1raced = 2 ∧
    (∀ s ∈ c1raced.sessions, s.status = Status.in_call ∧ s.matchId = some "m2") := by
  decide

/-! ## C2 -/

/-- Signals store: the peer sess_b has sent two signals into match m0 that
sess_a has not yet consumed. -/
def c2latest : Store :=
  sendSignalSupabase "m0" "sess_b" "p2" 2 (sendSignalSupabase "m0" "sess_b" "p1" 1 Store.empty)

/-- Signals store for the cursor variant: one signal from sess_b at t = 5. -/
def c2first : Store := sendSignalSupabase "m0" "sess_b" "q1" 5 Store.empty

/-- `c2first` after a second signal from sess_b with the same `created_at`
(two sends within the same millisecond). -/
def c2second : Store := sendSignalSupabase "m0" "sess_b" "q2" 5 c2first

/-- C2: the receive operations do not deliver each message exactly once.
`receiveSignalSupabase` keeps no cursor and returns only the single most
recent opposing message: with two unconsumed messages p1, p2 it returns p2
(p1 is lost), and — the store being unchanged by a read — an immediately
repeated poll returns p2 again (duplicate).  The cursor variant
`receiveAllSignalsSupabase` advances `lastSignalTime` to the `created_at`
of the last delivered row and filters with a strict `gt`, so a message
whose `created_at` equals the cursor (sent in the same millisecond, after
the poll) is never delivered. -/
theorem receive_loses_and_duplicates_messages :
    receiveSignalSupabase "m0" "sess_a" c2latest = some "p2" ∧
    (receiveSignalSupabase "m0" "sess_a" c2latest ≠ some "p1" ∧
     receiveSignalSupabase "m0" "sess_a" c2latest =
       receiveSignalSupabase "m0" "sess_a" c2latest) ∧
    receiveAllSignalsSupabase "m0" "sess_a" 0 c2first = (["q1"], 5) ∧
    receiveAllSignalsSupabase "m0" "sess_a" 5 c2second = ([], 5) := by
  decide

/-! ## C3 -/

/-- C3: `endMatch` is not idempotent.  The first call at t = 42 s stamps
`ended_at = 42000` and `duration_seconds = 42`; the second call at
t = 100 s still finds the row (the guard only checks existence, not
`ended_at`), recomputes the duration and overwrites both stamps
(`duration_seconds` becomes 100), so the second call is not a no-op on the
store — only the returned `{ error: null }` part of the claim survives. -/
theorem endMatch_second_call_overwrites_stamps :
    (endMatch "m1" 42000 c3store).2.error = none ∧
    findSingleMatch "m1" c3once = some ⟨"m1", "sess_a", "sess_b", 0, some 42000, some 42⟩ ∧
    (endMatch "m1" 100000 c3once).2.error = none ∧
    findSingleMatch "m1" c3twice = some ⟨"m1", "sess_a", "sess_b", 0, some 100000, some 100⟩ ∧
    c3twice ≠ c3once := by
  decide

/-! ## C4 -/

/-- C4: the coordinator operations do not preserve the session-record
invariant.  From `c4initial` (invariant holds) sess_c's pairing step claims
sess_b (invariant still holds), but sess_a's racing `createMatch` — whose
session updates are guarded only by `eq('id', …)` — overwrites sess_b's
`match_id` although sess_b is already `in_call`: afterwards match m0 is
still open yet only one session carries its id, and sess_b participates in
two open matches. -/
theorem createMatch_breaks_session_invariant :
    sessionInvariant c4initial = true ∧
    getAvailablePeer "sess_a" c4initial = some "sess_b" ∧
    getAvailablePeer "sess_c" c4initial = some "sess_b" ∧
    sessionInvariant c4claimed = true ∧
    sessionInvariant c4raced = false ∧
    openMatchCount "sess_b" c4raced = 2 := by
  decide

/-! ## C6 -/

/-- C6: the offer role is decided by `sessionId < peerId`, a pure function
of the two session ids; for every pair of distinct ids exactly one of the
two sides computes `true` and therefore takes the offer role. -/
theorem offer_role_deterministic_and_unique (a b : String) (h : a ≠ b) :
    (isInitiator a b = true ∧ isInitiator b a = false) ∨
    (isInitiator a b = false ∧ isInitiator b a = true) := by
  rcases lt_trichotomy a b with hlt | heq | hgt
  · left
    refine ⟨by simp [isInitiator, hlt], ?_⟩
    simp only [isInitiator, decide_eq_false_iff_not]
    exact asymm hlt
  · exact absurd heq h
  · right
    refine ⟨?_, by simp [isInitiator, hgt]⟩
    simp only [isInitiator, decide_eq_false_iff_not]
    exact asymm hgt

/-- Witness for C6 at the concrete pair ("sess_a", "sess_b"). -/
theorem offer_role_deterministic_and_unique_check :
    ("sess_a" : String) ≠ "sess_b" ∧
    ((isInitiator "sess_a" "sess_b" = true ∧ isInitiator "sess_b" "sess_a" = false) ∨
     (isInitiator "sess_a" "sess_b" = false ∧ isInitiator "sess_b" "sess_a" = true)) :=
  ⟨by decide, offer_role_deterministic_and_unique "sess_a" "sess_b" (by decide)⟩

/-! ## C8 -/

/-- C8: `endMatch` on a match id with no row in the `matches` table is a
no-op: `.single()` yields null data, the early return fires before any
write, the whole store is unchanged and the result is `{ error: null }`. -/
theorem endMatch_unknown_id_is_noop (σ : Store) (mId : String) (now : Nat)
    (h : σ.matchesTable.filter (fun m => m.id == mId) = []) :
    endMatch mId now σ = (σ, ⟨none⟩) := by
  unfold endMatch findSingleMatch
  rw [h]

/-- Witness for C8: ending the never-created match id "m404" on the empty
store. -/
theorem endMatch_unknown_id_is_noop_check :
    Store.empty.matchesTable.filter (fun m => m.id == "m404") = [] ∧
    endMatch "m404" 7 Store.empty = (Store.empty, ⟨none⟩) :=
  ⟨by decide, endMatch_unknown_id_is_noop Store.empty "m404" 7 (by decide)⟩

/-! ## C10 -/

/-- C10: no coordinator operation ever surfaces a failure.  For every input
and store, `upsertPresence` returns `{ session_id, error: null }`,
`createMatch` returns the generated match id and the peer id with
`error: null` (the two session updates are never checked), and `endMatch`
returns `{ error: null }` on both of its paths. -/
theorem coordinator_never_returns_error :
    (∀ (sid : String) (st : Status) (now : Nat) (σ : Store),
      (upsertPresence sid st now σ).2 = ⟨sid, none⟩) ∧
    (∀ (sid pid mId : String) (now : Nat) (σ : Store),
      (createMatch sid pid mId now σ).2 = ⟨mId, pid, none⟩) ∧
    (∀ (mId : String) (now : Nat) (σ : Store),
      (endMatch mId now σ).2 = ⟨none⟩) := by
  refine ⟨fun _ _ _ _ => rfl, fun _ _ _ _ _ => rfl, fun mId now σ => ?_⟩
  unfold endMatch
  cases findSingleMatch mId σ <;> rfl

/-! ## C5 -/

/-- `freshest` selects an element of its input. -/
theorem freshest_mem (l : List SessionRec) :
    ∀ best, freshest best l = best ∨ freshest best l ∈ l := by
  induction l with
  | nil => intro best; left; rfl
  | cons c cs ih =>
    intro best
    rw [freshest]
    by_cases hb : best.lastHeartbeat < c.lastHeartbeat
    · rw [if_pos hb]
      rcases ih c with h | h
      · right; rw [h]; exact List.mem_cons_self c cs
      · right; exact List.mem_cons_of_mem c h
    · rw [if_neg hb]
      rcases ih best with h | h
      · left; exact h
      · right; exact List.mem_cons_of_mem c h

/-- `freshest` selects an element with maximal heartbeat. -/
theorem freshest_maximal (l : List SessionRec) :
    ∀ best, best.lastHeartbeat ≤ (freshest best l).lastHeartbeat ∧
      ∀ c ∈ l, c.lastHeartbeat ≤ (freshest best l).lastHeartbeat := by
  induction l with
  | nil =>
    intro best
    exact ⟨le_refl _, by intro c hc; exact absurd hc (List.not_mem_nil c)⟩
  | cons c cs ih =>
    intro best
    rw [freshest]
    by_cases hb : best.lastHeartbeat < c.lastHeartbeat
    · rw [if_pos hb]
      obtain ⟨h1, h2⟩ := ih c
      refine ⟨le_trans (le_of_lt hb) h1, ?_⟩
      intro d hd
      rcases List.mem_cons.mp hd with he | hd2
      · rw [he]; exact h1
      · exact h2 d hd2
    · rw [if_neg hb]
      obtain ⟨h1, h2⟩ := ih best
      refine ⟨h1, ?_⟩
      intro d hd
      rcases List.mem_cons.mp hd with he | hd2
      · rw [he]; exact le_trans (le_of_not_lt hb) h1
      · exact h2 d hd2

/-- C5 (amended): candidate selection returns only a waiting session with
an id different from the requester, and among those it prefers a freshest
heartbeat; it applies no staleness cutoff and no blacklist exclusion (the
query never reads the blacklist, so the result is identical for every
blacklist content). -/
theorem getAvailablePeer_waiting_and_freshest_only (σ : Store) (sid p : String)
    (h : getAvailablePeer sid σ = some p) :
    (∃ r ∈ σ.sessions, r.id = p ∧ r.status = Status.waiting ∧ r.id ≠ sid ∧
      ∀ r2 ∈ σ.sessions, r2.status = Status.waiting → r2.id ≠ sid →
        r2.lastHeartbeat ≤ r.lastHeartbeat) ∧
    (∀ bl : List String, getAvailablePeer sid { σ with blacklist := bl } =
      getAvailablePeer sid σ) := by
  refine ⟨?_, fun bl => rfl⟩
  unfold getAvailablePeer at h
  cases hfe : σ.sessions.filter (fun r => r.status == Status.waiting && r.id != sid) with
  | nil => rw [hfe] at h; exact absurd h (by simp)
  | cons r rs =>
    rw [hfe] at h
    have hp : (freshest r rs).id = p := by simpa using h
    have hmem0 : freshest r rs ∈ r :: rs := by
      rcases freshest_mem rs r with he | hm
      · rw [he]; exact List.mem_cons_self r rs
      · exact List.mem_cons_of_mem r hm
    have hmemf : freshest r rs ∈
        σ.sessions.filter (fun r => r.status == Status.waiting && r.id != sid) := by
      rw [hfe]; exact hmem0
    obtain ⟨hmemS, hpred⟩ := List.mem_filter.mp hmemf
    have hw : (freshest r rs).status = Status.waiting := by
      have := (Bool.and_eq_true _ _).mp hpred
      exact eq_of_beq this.1
    have hne : (freshest r rs).id ≠ sid := by
      have := (Bool.and_eq_true _ _).mp hpred
      exact bne_iff_ne.mp this.2
    refine ⟨freshest r rs, hmemS, hp, hw, hne, ?_⟩
    intro r2 hr2 hw2 hne2
    have hr2f : r2 ∈
        σ.sessions.filter (fun r => r.status == Status.waiting && r.id != sid) := by
      refine List.mem_filter.mpr ⟨hr2, ?_⟩
      simp [hw2, hne2]
    rw [hfe] at hr2f
    obtain ⟨h1, h2⟩ := freshest_maximal rs r
    rcases List.mem_cons.mp hr2f with he | hd2
    · rw [he]; exact h1
    · exact h2 r2 hd2

/-- Store used for the C5 counterexample: the only candidate for sess_r is
sess_s, whose heartbeat (time 0) is 1000 seconds older than the current
time 1000000 ms — far beyond the 10 s liveness window — and which is also
on the blacklist. -/
def c5store : Store :=
  { sessions := [⟨"sess_r", Status.waiting, 1000000, none⟩,
                 ⟨"sess_s", Status.waiting, 0, none⟩],
    matchesTable := [], signals := [], reports := [], blacklist := ["sess_s"] }

/-- C5 counterexample: the selection query filters only on status and id,
so sess_s is returned although it is stale (heartbeat older than the 10 s
liveness window at current time 1000000) and blacklisted. -/
theorem getAvailablePeer_returns_stale_blacklisted :
    getAvailablePeer "sess_r" c5store = some "sess_s" ∧
    "sess_s" ∈ c5store.blacklist ∧
    (∀ r ∈ c5store.sessions, r.id = "sess_s" → r.lastHeartbeat + 10000 < 1000000) := by
  decide

/-- Witness for C5 (amended) at the concrete store `c5store`. -/
theorem getAvailablePeer_waiting_and_freshest_only_check :
    getAvailablePeer "sess_r" c5store = some "sess_s" ∧
    ((∃ r ∈ c5store.sessions, r.id = "sess_s" ∧ r.status = Status.waiting ∧
        r.id ≠ "sess_r" ∧
        ∀ r2 ∈ c5store.sessions, r2.status = Status.waiting → r2.id ≠ "sess_r" →
          r2.lastHeartbeat ≤ r.lastHeartbeat) ∧
     (∀ bl : List String, getAvailablePeer "sess_r" { c5store with blacklist := bl } =
       getAvailablePeer "sess_r" c5store)) :=
  ⟨by decide, getAvailablePeer_waiting_and_freshest_only c5store "sess_r" "sess_s" (by decide)⟩

/-! ## C7 -/

/-- Explicit form of `endMatch` when `.single()` finds the match row. -/
theorem endMatch_eq_of_found (σ : Store) (mId : String) (now : Nat) (mr : MatchRec)
    (h : findSingleMatch mId σ = some mr) :
    endMatch mId now σ =
      ({ σ with
          matchesTable := σ.matchesTable.map (fun m =>
            if m.id == mId then
              { m with endedAt := some now,
                       durationSeconds := some ((now - mr.startedAt) / 1000) }
            else m),
          sessions := σ.sessions.map (fun r =>
            if r.id == mr.sessionA || r.id == mr.sessionB then
              { r with status := Status.waiting, matchId := none }
            else r) }, ⟨none⟩) := by
  unfold endMatch
  rw [h]

/-- C7: `endMatch` at time `now` on a stored match stamps
`ended_at = now` and `duration_seconds = (now − started_at) / 1000` (whole
seconds) on the match row, transitions every session referenced as
`session_a` or `session_b` back to `status = 'waiting'` with `match_id`
cleared, and returns `{ error: null }`. -/
theorem endMatch_stamps_duration_and_resets_sessions (σ : Store) (mId : String)
    (mr : MatchRec) (now : Nat) (h : findSingleMatch mId σ = some mr) :
    ((endMatch mId now σ).2.error = none) ∧
    (∀ m ∈ (endMatch mId now σ).1.matchesTable, m.id = mId →
      m.endedAt = some now ∧ m.durationSeconds = some ((now - mr.startedAt) / 1000)) ∧
    (∀ s ∈ (endMatch mId now σ).1.sessions,
      (s.id = mr.sessionA ∨ s.id = mr.sessionB) →
      s.status = Status.waiting ∧ s.matchId = none) := by
  rw [endMatch_eq_of_found σ mId now mr h]
  refine ⟨rfl, ?_, ?_⟩
  · intro m hm hid
    dsimp only at hm
    obtain ⟨m0, hm0, rfl⟩ := List.mem_map.mp hm
    revert hid
    split
    · intro _
      exact ⟨rfl, rfl⟩
    · next hcond =>
      intro hid
      exact absurd hid (by simpa using hcond)
  · intro s hs hid
    dsimp only at hs
    obtain ⟨s0, hs0, rfl⟩ := List.mem_map.mp hs
    revert hid
    split
    · intro _
      exact ⟨rfl, rfl⟩
    · next hcond =>
      intro hid
      have hnot := by simpa using hcond
      rcases hid with hid | hid
      · exact absurd hid hnot.1
      · exact absurd hid hnot.2

/-- Match m1 between sess_a and sess_b started at 5000 ms, in progress. -/
def c7store : Store :=
  { sessions := [⟨"sess_a", Status.in_call, 10, some "m1"⟩,
                 ⟨"sess_b", Status.in_call, 12, some "m1"⟩],
    matchesTable := [⟨"m1", "sess_a", "sess_b", 5000, none, none⟩],
    signals := [], reports := [], blacklist := [] }

/-- The stored row of match m1 in `c7store`. -/
def c7match : MatchRec := ⟨"m1", "sess_a", "sess_b", 5000, none, none⟩

/-- Witness for C7: ending m1 exactly 42 seconds after its start yields
`duration_seconds = 42` and both sessions return to waiting. -/
theorem endMatch_stamps_duration_and_resets_sessions_check :
    (47000 - c7match.startedAt) / 1000 = 42 ∧
    findSingleMatch "m1" c7store = some c7match ∧
    (((endMatch "m1" 47000 c7store).2.error = none) ∧
     (∀ m ∈ (endMatch "m1" 47000 c7store).1.matchesTable, m.id = "m1" →
        m.endedAt = some 47000 ∧
        m.durationSeconds = some ((47000 - c7match.startedAt) / 1000)) ∧
     (∀ s ∈ (endMatch "m1" 47000 c7store).1.sessions,
        (s.id = c7match.sessionA ∨ s.id = c7match.sessionB) →
        s.status = Status.waiting ∧ s.matchId = none)) :=
  ⟨by decide, by decide,
   endMatch_stamps_duration_and_resets_sessions c7store "m1" c7match 47000 (by decide)⟩

/-! ## C9 -/

/-- An ended match m0 between sess_a and sess_b; sess_b is waiting again,
and sess_r is a later requester. -/
def c9start : Store :=
  { sessions := [⟨"sess_r", Status.waiting, 5, none⟩,
                 ⟨"sess_b", Status.waiting, 9, none⟩],
    matchesTable := [⟨"m0", "sess_a", "sess_b", 0, some 50, some 0⟩],
    signals := [], reports := [], blacklist := [] }

/-- `c9start` after two reports against m0 from distinct reporters. -/
def c9two : Store := reportOp "m0" "r2" "cat2" 2 (reportOp "m0" "r1" "cat1" 1 c9start)

/-- `c9two` after the third distinct report — the blacklist threshold. -/
def c9reported : Store := reportOp "m0" "r3" "cat3" 3 c9two

/-- The stored row of match m0 in `c9start`. -/
def c9match : MatchRec := ⟨"m0", "sess_a", "sess_b", 0, some 50, some 0⟩

/-- C9 counterexample: after the three distinct reports both participants
of m0 are on the blacklist (spec-modelled `reportOp`), yet
`getAvailablePeer` — the candidate selection the repository actually
implements — still returns the blacklisted sess_b to the requester
sess_r. -/
theorem blacklisted_session_still_returned :
    "sess_a" ∈ c9reported.blacklist ∧
    "sess_b" ∈ c9reported.blacklist ∧
    getAvailablePeer "sess_r" c9reported = some "sess_b" := by
  decide

/-- C9 (amended): the report that brings the distinct-reporter count of a
stored match to the threshold 3 puts both of the match's participants on
the blacklist (spec-modelled), but the candidate selection under src never
reads the blacklist: its result is identical for every blacklist content,
so blacklisted sessions are not excluded. -/
theorem report_threshold_blacklists_but_selection_ignores :
    (∀ (σ : Store) (mId rep cat : String) (now : Nat) (m : MatchRec),
      3 ≤ (distinctReporters mId (appendReport mId rep cat now σ)).length →
      (appendReport mId rep cat now σ).matchesTable.filter (fun x => x.id == mId) = [m] →
      m.sessionA ∈ (reportOp mId rep cat now σ).blacklist ∧
      m.sessionB ∈ (reportOp mId rep cat now σ).blacklist) ∧
    (∀ (σ : Store) (bl : List String) (sid : String),
      getAvailablePeer sid { σ with blacklist := bl } = getAvailablePeer sid σ) := by
  constructor
  · intro σ mId rep cat now m h3 hm
    unfold reportOp
    rw [if_pos h3, hm]
    constructor
    · simp [List.mem_append]
    · simp [List.mem_append]
  · intro σ bl sid
    rfl

/-- Witness for C9 (amended): the third report against m0 blacklists both
sess_a and sess_b, and selection is blacklist-independent at `c9start`. -/
theorem report_threshold_blacklists_check :
    3 ≤ (distinctReporters "m0" (appendReport "m0" "r3" "cat3" 3 c9two)).length ∧
    (appendReport "m0" "r3" "cat3" 3 c9two).matchesTable.filter
      (fun x => x.id == "m0") = [c9match] ∧
    ("sess_a" ∈ (reportOp "m0" "r3" "cat3" 3 c9two).blacklist ∧
     "sess_b" ∈ (reportOp "m0" "r3" "cat3" 3 c9two).blacklist) ∧
    getAvailablePeer "sess_r" { c9start with blacklist := ["sess_b"] } =
      getAvailablePeer "sess_r" c9start :=
  ⟨by decide, by decide,
   report_threshold_blacklists_but_selection_ignores.1 c9two "m0" "r3" "cat3" 3 c9match
     (by decide) (by decide),
   report_threshold_blacklists_but_selection_ignores.2 c9start ["sess_b"] "sess_r"⟩

end AnonChat
